import Mathlib

/-!
Shallow embedding of the ARM/Thumb disassembler in
`src/disassembler_arm.cc` (namespace `art::arm`), together with proofs
about its rendering and range-walking behaviour.

Modelling conventions:
* Byte buffers are total functions `Nat → Nat`; every access is reduced
  modulo 256, mirroring the `uint8_t` type of the source pointers.
* Instruction pointers are `Nat` addresses; the pointer arithmetic of
  `DumpBranchTarget` (which may go below the instruction address) is
  carried out on `Int`.
* The `%p` / `%08x` / `%04x` renderings of `StringPrintf` and
  `operator<<(void*)` are modelled by lowercase hexadecimal (`ptrHex`,
  `hex8`, `hex4`), and `operator<<` on integers by decimal `toString`.
* The C idiom `(x << (32-w)) >> (32-w)` on `int32_t` (used by the source
  to sign extend a `w`-bit immediate) is modelled by `sext w`, which
  depends only on the low `w` bits of its argument, exactly as the
  compiled idiom does.
-/

namespace ArtArmDis

/-- Hexadecimal rendering of a natural number, lowercase as printed by
printf `%x`, no padding. -/
def natHex (n : Nat) : String := String.mk (Nat.toDigits 16 n)

/-- Models `%p`: a pointer printed as `0x` followed by lowercase hex. -/
def ptrHex (a : Nat) : String := "0x" ++ natHex a

/-- Models `%p` applied to a pointer obtained by possibly-negative `Int`
offset arithmetic (the embedding keeps addresses unbounded rather than
wrapping them at the machine word size). -/
def intPtr (t : Int) : String :=
  if t < 0 then "-0x" ++ natHex t.natAbs else "0x" ++ natHex t.natAbs

/-- Models printf `%0Wx`: zero-padded to at least `w` hex digits. -/
def hexPad (w n : Nat) : String :=
  String.mk (List.replicate (w - (Nat.toDigits 16 n).length) '0' ++ Nat.toDigits 16 n)

/-- Models `%08x`. -/
def hex8 (n : Nat) : String := hexPad 8 n

/-- Models `%04x`. -/
def hex4 (n : Nat) : String := hexPad 4 n

/-- Sign extension of the low `w` bits of `n`: the value of the C idiom
`(int32_t)(x << (32-w)) >> (32-w)`, which keeps the low `w` bits of `x`
and interprets bit `w-1` as the sign. -/
def sext (w : Nat) (n : Nat) : Int :=
  if n % 2 ^ w < 2 ^ (w - 1) then ((n % 2 ^ w : Nat) : Int)
  else ((n % 2 ^ w : Nat) : Int) - 2 ^ w

/-- The table `ConditionCodeNames` of the source (15 entries). -/
def ConditionCodeNames : List String :=
  ["EQ", "NE", "CS", "CC", "MI", "PL", "VS", "VC",
   "HI", "LS", "GE", "LT", "GT", "LE", "AL"]

/-- `DisassemblerArm::DumpCond`. -/
def DumpCond (cond : Nat) : String :=
  if cond < 15 then ConditionCodeNames.getD cond ""
  else "Unexpected condition: " ++ toString cond

/-- `DisassemblerArm::DumpReg`. -/
def DumpReg (reg : Nat) : String :=
  match reg with
  | 13 => "SP"
  | 14 => "LR"
  | 15 => "PC"
  | _ => "r" ++ toString reg

/-- The loop of `DisassemblerArm::DumpRegList`: iterate over the register
indices in `l` (the source uses `i = 0,...,15`) carrying the `first`
flag; a set bit prints `{`` or `, `` and then the register name. -/
def RegListLoop (reg_list : Nat) : List Nat → Bool → String
  | [], _ => ""
  | i :: rest, first =>
    if reg_list &&& (1 <<< i) ≠ 0 then
      (if first then "\x7b" else ", ") ++ DumpReg i ++ RegListLoop reg_list rest false
    else RegListLoop reg_list rest first

/-- `DisassemblerArm::DumpRegList`: the zero mask returns early with a
placeholder; otherwise the loop runs and a closing brace is appended. -/
def DumpRegList (reg_list : Nat) : String :=
  if reg_list = 0 then "<no register list?>"
  else RegListLoop reg_list (List.range 16) true ++ "\x7d"

/-- `DisassemblerArm::DumpBranchTarget`: prints the offset and then the
target pointer `instr_ptr + imm32` (call sites pass `instr_ptr + 4`). -/
def DumpBranchTarget (instr_ptr : Int) (imm32 : Int) : String :=
  toString imm32 ++ " (" ++ intPtr (instr_ptr + imm32) ++ ")"

/-- `ReadU16`: little-endian 16-bit load of two buffer bytes. -/
def ReadU16 (mem : Nat → Nat) (p : Nat) : Nat :=
  (mem p % 256) ||| ((mem (p + 1) % 256) <<< 8)

/-- `ReadU32`: little-endian 32-bit load of four buffer bytes. -/
def ReadU32 (mem : Nat → Nat) (p : Nat) : Nat :=
  (mem p % 256) ||| ((mem (p + 1) % 256) <<< 8) |||
    ((mem (p + 2) % 256) <<< 16) ||| ((mem (p + 3) % 256) <<< 24)

/-- `DisassemblerArm::DumpArm`: address and raw word only, no mnemonic. -/
def DumpArm (mem : Nat → Nat) (instr_ptr : Nat) : String :=
  "\t\t\t" ++ ptrHex instr_ptr ++ ": " ++ hex8 (ReadU32 mem instr_ptr) ++ "\n"

/-- The 32-bit test of `DumpThumb16`:
`((instr & 0xF000) == 0xF000) || ((instr & 0xF800) == 0xE800)`. -/
def is_32bit (instr : Nat) : Bool :=
  (instr &&& 0xF000 == 0xF000) || (instr &&& 0xF800 == 0xE800)

/-- Text of a locally decoded 16-bit unit, between the `%p: ` header and
the final `%04x` (the body of the `else` branch of `DumpThumb16`,
source lines 491-717). -/
def DumpThumb16Body (instr_ptr instr : Nat) : String :=
  let opcode1 := instr >>> 10
  if opcode1 < 0x10 then
    -- shift (immediate), add, subtract, move, and compare
    let opcode2 := instr >>> 9
    if opcode2 < 0xC then
      -- cases 0x0-0xB: LSL/LSR/ASR (immediate)
      let imm5 := (instr >>> 6) &&& 0x1F
      let Rm := (instr >>> 3) &&& 7
      let Rd := instr &&& 7
      (if opcode2 ≤ 3 then "LSLS " else if opcode2 ≤ 7 then "LSRS " else "ASRS ")
        ++ DumpReg Rd ++ ", " ++ DumpReg Rm ++ ", #" ++ toString imm5 ++ "  // "
    else if opcode2 < 0x10 then
      -- cases 0xC-0xF: add/sub register or 3-bit immediate
      let imm3_or_Rm := (instr >>> 6) &&& 7
      let Rn := (instr >>> 3) &&& 7
      let Rd := instr &&& 7
      (if opcode2 &&& 2 ≠ 0 ∧ imm3_or_Rm = 0 then "MOV "
       else if opcode2 &&& 1 = 0 then "ADDS " else "SUBS ")
        ++ DumpReg Rd ++ ", " ++ DumpReg Rn
        ++ (if opcode2 &&& 2 = 0 then ", " ++ DumpReg imm3_or_Rm
            else if imm3_or_Rm ≠ 0 then ", #" ++ toString imm3_or_Rm else "")
        ++ "  // "
    else if opcode2 < 0x20 then
      -- cases 0x10-0x1F: MOVS/CMP/ADDS/SUBS with 8-bit immediate
      let Rn := (instr >>> 8) &&& 7
      let imm8 := instr &&& 0xFF
      (match opcode2 >>> 2 with
       | 4 => "MOVS " | 5 => "CMP " | 6 => "ADDS " | 7 => "SUBS " | _ => "")
        ++ DumpReg Rn ++ ", #" ++ toString imm8 ++ "  // "
    else ""
  else if opcode1 = 0x11 then
    -- special data instructions and branch and exchange
    let opcode2 := (instr >>> 6) &&& 0xF
    if opcode2 < 4 then
      -- cases 0x0-0x3: ADD (low or high registers)
      let DN := (instr >>> 7) &&& 1
      let Rm := (instr >>> 3) &&& 0xF
      let Rdn := instr &&& 7
      let DN_Rdn := (DN <<< 3) ||| Rdn
      "ADD " ++ DumpReg DN_Rdn ++ ", " ++ DumpReg Rm ++ "  // "
    else if opcode2 = 0x8 ∨ opcode2 = 0x9 ∨ opcode2 = 0xA ∨ opcode2 = 0xB then
      -- cases 0x8-0xB: MOV (low or high registers)
      let DN := (instr >>> 7) &&& 1
      let Rm := (instr >>> 3) &&& 0xF
      let Rdn := instr &&& 7
      let DN_Rdn := (DN <<< 3) ||| Rdn
      "MOV " ++ DumpReg DN_Rdn ++ ", " ++ DumpReg Rm ++ "  // "
    else if opcode2 = 0x5 ∨ opcode2 = 0x6 ∨ opcode2 = 0x7 then
      -- cases 0x5-0x7: CMP (high registers)
      let N := (instr >>> 7) &&& 1
      let Rm := (instr >>> 3) &&& 0xF
      let Rn := instr &&& 7
      let N_Rn := (N <<< 3) ||| Rn
      "CMP " ++ DumpReg N_Rn ++ ", " ++ DumpReg Rm ++ "  // "
    else if opcode2 = 0xC ∨ opcode2 = 0xD ∨ opcode2 = 0xE ∨ opcode2 = 0xF then
      -- cases 0xC-0xF: BX / BLX (register)
      let Rm := (instr >>> 3) &&& 0xF
      (if opcode2 &&& 0x2 = 0 then "BX " else "BLX ") ++ DumpReg Rm ++ "  // "
    else ""
  else if instr &&& 0xF000 = 0xB000 then
    -- miscellaneous 16-bit instructions
    let opcode2 := (instr >>> 5) &&& 0x7F
    if opcode2 < 8 then
      -- cases 0x00-0x07: ADD/SUB immediate to SP
      let imm7 := instr &&& 0x7F
      (if opcode2 &&& 4 = 0 then "ADD SP, SP, #" else "SUB SP, SP, #")
        ++ toString (imm7 <<< 2) ++ "  // "
    else if 0x78 ≤ opcode2 ∧ opcode2 ≤ 0x7F then
      -- cases 0x78-0x7F: if-then and hints
      let opA := (instr >>> 4) &&& 0xF
      let opB := instr &&& 0xF
      if opB = 0 then
        (match opA with
         | 0 => "NOP  // " | 1 => "YIELD  // " | 2 => "WFE  // " | 3 => "SEV  // "
         | _ => "")
      else
        -- the source prints opB via operator<<(void*), hence in hex
        "IT " ++ ptrHex opB ++ " " ++ DumpCond opA ++ "  // "
    else ""
  else if instr &&& 0xF000 = 0x5000 ∨ instr &&& 0xE000 = 0x6000 ∨
      instr &&& 0xE000 = 0x8000 then
    -- load/store single data item
    let opA := instr >>> 12
    if opA = 0x6 then
      let imm5 := (instr >>> 6) &&& 0x1F
      let Rn := (instr >>> 3) &&& 7
      let Rt := instr &&& 7
      (if instr &&& 0x800 = 0 then "STR " else "LDR ")
        ++ DumpReg Rt ++ ", [" ++ DumpReg Rn ++ ", #" ++ toString (imm5 <<< 2)
        ++ "]  // "
    else if opA = 0x9 then
      let imm8 := instr &&& 0xFF
      let Rt := (instr >>> 8) &&& 7
      (if instr &&& 0x800 = 0 then "STR " else "LDR ")
        ++ DumpReg Rt ++ ", [SP, #" ++ toString (imm8 <<< 2) ++ "]  // "
    else ""
  else if opcode1 = 0x38 ∨ opcode1 = 0x39 then
    -- unconditional branch; the source masks with 0x7FFF (not 0x7FF), the
    -- later sign extension from 12 bits discards the extra bits again
    let imm11 := instr &&& 0x7FFF
    let imm32 := sext 12 (imm11 <<< 1)
    "B " ++ DumpBranchTarget ((instr_ptr : Int) + 4) imm32 ++ "  // "
  else ""

/-- One full output line of a locally decoded 16-bit unit: header,
body, raw `%04x` hex, newline. -/
def DumpThumb16Line (instr_ptr instr : Nat) : String :=
  "\t\t\t" ++ ptrHex instr_ptr ++ ": " ++ DumpThumb16Body instr_ptr instr
    ++ hex4 instr ++ "\n"

/-- The BL/BLX branch offset of source lines 342-356.  `I1`/`I2` use the
unmasked `uint32_t` complement `~(J ^ S)` exactly as the source does, and
`sext 24` models `(imm32 << 8) >> 8` (both depend only on the low 24 bits
of the assembled word, so the `uint32_t` wrap-around of the shifts is
immaterial). -/
def BLImm32 (S J1 J2 imm10 imm11 : Nat) : Int :=
  let I1 := 0xFFFFFFFF ^^^ (J1 ^^^ S)
  let I2 := 0xFFFFFFFF ^^^ (J2 ^^^ S)
  sext 24 ((S <<< 24) ||| (I1 <<< 23) ||| (I2 <<< 22) ||| (imm10 <<< 12) |||
    (imm11 <<< 1))

/-- Text of a 32-bit unit for `op1 ≠ 0`, between the `%p: ` header and
the final `%08x` (the `switch (op1)` of `DumpThumb32`, lines 129-480). -/
def DumpThumb32Body (instr_ptr instr : Nat) : String :=
  let op1 := (instr >>> 27) &&& 3
  let op2 := (instr >>> 20) &&& 0x7F
  if op1 = 1 then
    if op2 = 0x00 ∨ op2 = 0x01 ∨ op2 = 0x02 ∨ op2 = 0x03 ∨
        op2 = 0x08 ∨ op2 = 0x09 ∨ op2 = 0x0A ∨ op2 = 0x0B ∨
        op2 = 0x10 ∨ op2 = 0x11 ∨ op2 = 0x12 ∨ op2 = 0x13 ∨
        op2 = 0x18 ∨ op2 = 0x19 ∨ op2 = 0x1A ∨ op2 = 0x1B then
      -- load/store multiple: STM/LDM/STMDB/LDMDB with PUSH/POP specials
      let op := (instr >>> 23) &&& 3
      let W := (instr >>> 21) &&& 1
      let L := (instr >>> 20) &&& 1
      let Rn := (instr >>> 16) &&& 0xF
      let reg_list := instr &&& 0xFFFF
      if op = 1 ∨ op = 2 then
        (if op = 1 then
           (if L = 0 then "STM " ++ DumpReg Rn ++ (if W = 0 then ", " else "!, ")
            else if Rn ≠ 13 then
              "LDM " ++ DumpReg Rn ++ (if W = 0 then ", " else "!, ")
            else "POP ")
         else
           (if L = 0 then
              (if Rn ≠ 13 then
                "STMDB " ++ DumpReg Rn ++ (if W = 0 then ", " else "!, ")
               else "PUSH ")
            else "LDMDB " ++ DumpReg Rn ++ (if W = 0 then ", " else "!, ")))
          ++ DumpRegList reg_list ++ "  // "
      else ""
    else ""
  else if op1 = 2 then
    if instr &&& 0x8000 = 0 ∧ op2 &&& 0x20 = 0 then
      -- data-processing (modified immediate)
      let i := (instr >>> 26) &&& 1
      let op3 := (instr >>> 21) &&& 0xF
      let S := (instr >>> 20) &&& 1
      let Rn := (instr >>> 16) &&& 0xF
      let imm3 := (instr >>> 12) &&& 7
      let Rd := (instr >>> 8) &&& 0xF
      let imm8 := instr &&& 0xFF
      let imm32 := (i <<< 12) ||| (imm3 <<< 8) ||| imm8
      (match op3 with
       | 0x0 => "AND" | 0x1 => "BIC" | 0x2 => "ORR" | 0x3 => "ORN"
       | 0x4 => "EOR" | 0x8 => "ADD" | 0xA => "ADC" | 0xB => "SBC"
       | 0xD => "SUB" | 0xE => "RSB"
       | _ => "UNKNOWN DPMI-" ++ toString op3)
        ++ (if S = 1 then "S " else " ")
        ++ DumpReg Rd ++ ", " ++ DumpReg Rn
        ++ ", ThumbExpand(" ++ toString imm32 ++ ")  // "
    else if instr &&& 0x8000 = 0 ∧ op2 &&& 0x20 ≠ 0 then
      -- data-processing (plain binary immediate)
      let op3 := (instr >>> 20) &&& 0x1F
      let Rn := (instr >>> 16) &&& 0xF
      if op3 = 0x04 then
        let Rd := (instr >>> 8) &&& 0xF
        let i := (instr >>> 26) &&& 1
        let imm3 := (instr >>> 12) &&& 0x7
        let imm8 := instr &&& 0xFF
        let imm16 := (Rn <<< 12) ||| (i <<< 11) ||| (imm3 <<< 8) ||| imm8
        "MOVW " ++ DumpReg Rd ++ ", #" ++ toString imm16 ++ "  // "
      else if op3 = 0x0A then
        let Rd := (instr >>> 8) &&& 0xF
        let i := (instr >>> 26) &&& 1
        let imm3 := (instr >>> 12) &&& 0x7
        let imm8 := instr &&& 0xFF
        let imm12 := (i <<< 11) ||| (imm3 <<< 8) ||| imm8
        "SUB.W " ++ DumpReg Rd ++ ", " ++ DumpReg Rn
          ++ ", #" ++ toString imm12 ++ "  // "
      else ""
    else
      -- branches and miscellaneous control
      let op3 := (instr >>> 12) &&& 7
      if op3 = 0 then
        if op2 &&& 0x38 ≠ 0x38 then
          -- conditional branch; sext 21 models (imm32 << 11) >> 11
          let S := (instr >>> 26) &&& 1
          let J2 := (instr >>> 11) &&& 1
          let J1 := (instr >>> 13) &&& 1
          let imm6 := (instr >>> 16) &&& 0x3F
          let imm11 := instr &&& 0x7FF
          let cond := (instr >>> 22) &&& 0xF
          let imm32 := sext 21 ((S <<< 20) ||| (J2 <<< 19) ||| (J1 <<< 18) |||
            (imm6 <<< 12) ||| (imm11 <<< 1))
          "B" ++ DumpCond cond ++ ".W "
            ++ DumpBranchTarget ((instr_ptr : Int) + 4) imm32 ++ "  // "
        else ""
      else if op3 = 4 ∨ op3 = 6 ∨ op3 = 5 ∨ op3 = 7 then
        -- BL, BLX (immediate); no trailing separator in the source
        let S := (instr >>> 26) &&& 1
        let J2 := (instr >>> 11) &&& 1
        let L := (instr >>> 12) &&& 1
        let J1 := (instr >>> 13) &&& 1
        let imm10 := (instr >>> 16) &&& 0x3FF
        let imm11 := instr &&& 0x7FF
        (if L = 0 then "BX " else "BLX ")
          ++ DumpBranchTarget ((instr_ptr : Int) + 4) (BLImm32 S J1 J2 imm10 imm11)
      else ""
  else if op1 = 3 then
    if op2 = 0x00 ∨ op2 = 0x02 ∨ op2 = 0x04 ∨ op2 = 0x06 ∨
        op2 = 0x08 ∨ op2 = 0x0A ∨ op2 = 0x0C ∨ op2 = 0x0E then
      -- store single data item
      let op3 := (instr >>> 21) &&& 7
      if op3 = 0x2 ∨ op3 = 0x6 then
        let Rn := (instr >>> 16) &&& 0xF
        let Rt := (instr >>> 12) &&& 0xF
        if op3 = 2 then
          let P := (instr >>> 10) &&& 1
          let U := (instr >>> 9) &&& 1
          let W := (instr >>> 8) &&& 1
          let imm8 := instr &&& 0xFF
          let imm32 := sext 8 imm8
          if Rn = 13 ∧ P = 1 ∧ U = 0 ∧ W = 1 then
            "PUSH " ++ DumpReg Rt ++ "  // "
          else if Rn = 15 ∨ (P = 0 ∧ W = 0) then "UNDEFINED "
          else
            (if P = 1 ∧ U = 1 ∧ W = 0 then "STRT " else "STR ")
              ++ DumpReg Rt ++ ", [" ++ DumpReg Rn
              ++ (if P = 0 ∧ W = 1 then "], #" ++ toString imm32
                  else ", #" ++ toString imm32 ++ "]"
                    ++ (if W = 1 then "!" else ""))
              ++ "  // "
        else if op3 = 6 then
          let imm12 := instr &&& 0xFFF
          "STR.W " ++ DumpReg Rt ++ ", [" ++ DumpReg Rn
            ++ ", #" ++ toString imm12 ++ "]  // "
        else ""
      else ""
    else if op2 = 0x05 ∨ op2 = 0x0D ∨ op2 = 0x15 ∨ op2 = 0x1D then
      -- load word
      let op3 := (instr >>> 23) &&& 3
      let op4 := (instr >>> 6) &&& 0x3F
      let Rn := (instr >>> 16) &&& 0xF
      let Rt := (instr >>> 12) &&& 0xF
      if op3 = 1 ∨ Rn = 15 then
        let imm12 := instr &&& 0xFFF
        "LDR.W " ++ DumpReg Rt ++ ", [" ++ DumpReg Rn
          ++ ", #" ++ toString imm12 ++ "]  // "
      else if op4 = 0 then
        let imm2 := (instr >>> 4) &&& 0xF
        let Rm := instr &&& 0xF
        "LDR.W " ++ DumpReg Rt ++ ", [" ++ DumpReg Rn ++ ", " ++ DumpReg Rm
          ++ (if imm2 ≠ 0 then ", LSL #" ++ toString imm2 else "") ++ "]  // "
      else
        let imm8 := instr &&& 0xFF
        "LDRT " ++ DumpReg Rt ++ ", [" ++ DumpReg Rn
          ++ ", #" ++ toString imm8 ++ "]  // "
    else ""
  else ""

/-- `DisassemblerArm::DumpThumb32` on an already assembled 32-bit word.
The header is printed before the `op1` dispatch.  For `op1 = 0` the
source re-enters `DumpThumb16(os, instr_ptr)`; the first halfword
(`instr >>> 16`) then never passes the 32-bit test (see
`op1_zero_not_32bit` and `DumpThumb32_op1_zero`), so that call decodes
the halfword locally and returns 2. -/
def DumpThumb32W (instr_ptr instr : Nat) : String × Nat :=
  let op1 := (instr >>> 27) &&& 3
  let header := "\t\t\t" ++ ptrHex instr_ptr ++ ": "
  if op1 = 0 then
    (header ++ DumpThumb16Line instr_ptr (instr >>> 16), 2)
  else
    (header ++ DumpThumb32Body instr_ptr instr ++ hex8 instr ++ "\n", 4)

/-- `DisassemblerArm::DumpThumb32`: combines two little-endian 16-bit
halves, first half in the high bits. -/
def DumpThumb32 (mem : Nat → Nat) (instr_ptr : Nat) : String × Nat :=
  DumpThumb32W instr_ptr ((ReadU16 mem instr_ptr <<< 16) ||| ReadU16 mem (instr_ptr + 2))

/-- `DisassemblerArm::DumpThumb16`: output text and number of bytes
consumed (2 locally, or whatever `DumpThumb32` returns). -/
def DumpThumb16 (mem : Nat → Nat) (instr_ptr : Nat) : String × Nat :=
  let instr := ReadU16 mem instr_ptr
  if is_32bit instr then DumpThumb32 mem instr_ptr
  else (DumpThumb16Line instr_ptr instr, 2)

/-- Every decode step reports 2 or 4 consumed bytes. -/
theorem DumpThumb16_snd_two_or_four (mem : Nat → Nat) (p : Nat) :
    (DumpThumb16 mem p).2 = 2 ∨ (DumpThumb16 mem p).2 = 4 := by
  unfold DumpThumb16 DumpThumb32 DumpThumb32W
  dsimp only
  split
  · split <;> simp
  · simp

/-- The `if ((begin & 1) == 0)` loop of `Dump`: fixed 4-byte strides from
`cur` while `cur < e`, one `DumpArm` line per stride. -/
def DumpArmRange (mem : Nat → Nat) (cur e : Nat) : String :=
  if cur < e then DumpArm mem cur ++ DumpArmRange mem (cur + 4) e else ""
termination_by e - cur
decreasing_by omega

/-- The compressed-mode loop of `Dump`: each step advances by the number
of bytes `DumpThumb16` reports consuming, while `cur < e`. -/
def DumpThumbRange (mem : Nat → Nat) (cur e : Nat) : String :=
  if cur < e then
    (DumpThumb16 mem cur).1 ++ DumpThumbRange mem (cur + (DumpThumb16 mem cur).2) e
  else ""
termination_by e - cur
decreasing_by
  rcases DumpThumb16_snd_two_or_four mem cur with h | h <;> omega

/-- Total number of bytes the compressed-mode loop consumes on `[cur, e)`. -/
def ThumbConsumed (mem : Nat → Nat) (cur e : Nat) : Nat :=
  if cur < e then
    (DumpThumb16 mem cur).2 + ThumbConsumed mem (cur + (DumpThumb16 mem cur).2) e
  else 0
termination_by e - cur
decreasing_by
  rcases DumpThumb16_snd_two_or_four mem cur with h | h <;> omega

/-- `DisassemblerArm::Dump`: mode is chosen by the low bit of `begin`.
In the even (ARM) branch neither bound is masked; in the odd (Thumb)
branch both bounds get `& ~1`, modelled as `2 * (x / 2)`. -/
def Dump (mem : Nat → Nat) (b e : Nat) : String :=
  if b % 2 = 0 then DumpArmRange mem b e
  else DumpThumbRange mem (2 * (b / 2)) (2 * (e / 2))

/-- Unfolding equation for `DumpArmRange` (used for targeted rewriting). -/
theorem DumpArmRange_eq (mem : Nat → Nat) (cur e : Nat) :
    DumpArmRange mem cur e =
      if cur < e then DumpArm mem cur ++ DumpArmRange mem (cur + 4) e else "" := by
  rw [DumpArmRange]

/-- Unfolding equation for `DumpThumbRange`. -/
theorem DumpThumbRange_eq (mem : Nat → Nat) (cur e : Nat) :
    DumpThumbRange mem cur e =
      if cur < e then
        (DumpThumb16 mem cur).1 ++ DumpThumbRange mem (cur + (DumpThumb16 mem cur).2) e
      else "" := by
  rw [DumpThumbRange]

/-- Unfolding equation for `ThumbConsumed`. -/
theorem ThumbConsumed_eq (mem : Nat → Nat) (cur e : Nat) :
    ThumbConsumed mem cur e =
      if cur < e then
        (DumpThumb16 mem cur).2 + ThumbConsumed mem (cur + (DumpThumb16 mem cur).2) e
      else 0 := by
  rw [ThumbConsumed]

/-! ### Bitfield arithmetic bridges

The source tests bitfields with `&` against contiguous masks; these
lemmas turn every such mask expression into `/`, `%` and `<<<` by a
constant, which `omega` can reason about. -/

/-- Conjunction with a contiguous bitfield mask extracts the field. -/
theorem mask_extract (x a b : Nat) :
    x &&& ((2 ^ b - 1) <<< a) = (x >>> a % 2 ^ b) <<< a := by
  apply Nat.eq_of_testBit_eq
  intro i
  simp only [Nat.testBit_and, Nat.testBit_shiftLeft, Nat.testBit_mod_two_pow,
    Nat.testBit_two_pow_sub_one, Nat.testBit_shiftRight]
  by_cases h : a ≤ i
  · simp only [ge_iff_le, h, decide_True, Bool.true_and, Nat.add_sub_cancel' h]
    by_cases h2 : i - a < b <;> simp [h2, Bool.and_comm]
  · simp [h]

theorem andm3 (x : Nat) : x &&& 3 = x % 4 := by
  simpa using Nat.and_pow_two_sub_one_eq_mod x 2

theorem andm7 (x : Nat) : x &&& 7 = x % 8 := by
  simpa using Nat.and_pow_two_sub_one_eq_mod x 3

theorem andmF (x : Nat) : x &&& 0xF = x % 16 := by
  simpa using Nat.and_pow_two_sub_one_eq_mod x 4

theorem andm1F (x : Nat) : x &&& 0x1F = x % 32 := by
  simpa using Nat.and_pow_two_sub_one_eq_mod x 5

theorem andm3F (x : Nat) : x &&& 0x3F = x % 64 := by
  simpa using Nat.and_pow_two_sub_one_eq_mod x 6

theorem andm7F (x : Nat) : x &&& 0x7F = x % 128 := by
  simpa using Nat.and_pow_two_sub_one_eq_mod x 7

theorem andmFF (x : Nat) : x &&& 0xFF = x % 256 := by
  simpa using Nat.and_pow_two_sub_one_eq_mod x 8

theorem andm3FF (x : Nat) : x &&& 0x3FF = x % 1024 := by
  simpa using Nat.and_pow_two_sub_one_eq_mod x 10

theorem andm7FF (x : Nat) : x &&& 0x7FF = x % 2048 := by
  simpa using Nat.and_pow_two_sub_one_eq_mod x 11

theorem andmFFF (x : Nat) : x &&& 0xFFF = x % 4096 := by
  simpa using Nat.and_pow_two_sub_one_eq_mod x 12

theorem andm7FFF (x : Nat) : x &&& 0x7FFF = x % 32768 := by
  simpa using Nat.and_pow_two_sub_one_eq_mod x 15

theorem andmFFFF (x : Nat) : x &&& 0xFFFF = x % 65536 := by
  simpa using Nat.and_pow_two_sub_one_eq_mod x 16

theorem andm20 (x : Nat) : x &&& 0x20 = ((x >>> 5) % 2) <<< 5 := by
  have h := mask_extract x 5 1; norm_num at h; exact h

theorem andm38 (x : Nat) : x &&& 0x38 = ((x >>> 3) % 8) <<< 3 := by
  have h := mask_extract x 3 3; norm_num at h; exact h

theorem andm800 (x : Nat) : x &&& 0x800 = ((x >>> 11) % 2) <<< 11 := by
  have h := mask_extract x 11 1; norm_num at h; exact h

theorem andm8000 (x : Nat) : x &&& 0x8000 = ((x >>> 15) % 2) <<< 15 := by
  have h := mask_extract x 15 1; norm_num at h; exact h

theorem andmE000 (x : Nat) : x &&& 0xE000 = ((x >>> 13) % 8) <<< 13 := by
  have h := mask_extract x 13 3; norm_num at h; exact h

theorem andmF000 (x : Nat) : x &&& 0xF000 = ((x >>> 12) % 16) <<< 12 := by
  have h := mask_extract x 12 4; norm_num at h; exact h

theorem andmF800 (x : Nat) : x &&& 0xF800 = ((x >>> 11) % 32) <<< 11 := by
  have h := mask_extract x 11 5; norm_num at h; exact h

/-- Disjoint bitwise or is addition. -/
theorem lor_eq_add (a b k : Nat) (h : b < 2 ^ k) : a <<< k ||| b = a * 2 ^ k + b := by
  calc a <<< k ||| b = 2 ^ k * a ||| b := by rw [Nat.shiftLeft_eq, mul_comm]
    _ = 2 ^ k * a + b := (Nat.mul_add_lt_is_or h a).symm
    _ = a * 2 ^ k + b := by rw [mul_comm]

/-- Halfword assembly `hw1 << 16 | hw2` as arithmetic. -/
theorem lor16_eq_add (hw hw2 : Nat) (h : hw2 < 65536) :
    hw <<< 16 ||| hw2 = hw * 65536 + hw2 := by
  have := lor_eq_add hw hw2 16 (by norm_num at h ⊢; omega)
  simpa using this

theorem ReadU16_lt (mem : Nat → Nat) (p : Nat) : ReadU16 mem p < 65536 := by
  unfold ReadU16
  have h := Nat.or_lt_two_pow (x := mem p % 256) (y := (mem (p + 1) % 256) <<< 8)
    (n := 16) (by omega) (by rw [Nat.shiftLeft_eq]; omega)
  simpa using h

/-- A top halfword with `op1 = 0` never passes the 32-bit test. -/
theorem op1_zero_not_32bit (hw hw2 : Nat) (h2 : hw2 < 65536)
    (h0 : ((hw <<< 16 ||| hw2) >>> 27) &&& 3 = 0) : is_32bit hw = false := by
  rw [lor16_eq_add hw hw2 h2, andm3] at h0
  simp only [is_32bit, Bool.or_eq_false_iff, beq_eq_false_iff_ne, ne_eq,
    andmF000, andmF800]
  omega

/-- A halfword that passes the 32-bit test yields `op1 ≠ 0`. -/
theorem is32_op1_ne_zero (hw hw2 : Nat) (h2 : hw2 < 65536)
    (h : is_32bit hw = true) : ((hw <<< 16 ||| hw2) >>> 27) &&& 3 ≠ 0 := by
  rw [lor16_eq_add hw hw2 h2, andm3]
  simp only [is_32bit, Bool.or_eq_true, beq_iff_eq, andmF000, andmF800] at h
  omega

/-- The 32-bit test, read as a condition on the top 5 bits. -/
theorem is_32bit_iff (hw : Nat) (h : hw < 65536) :
    is_32bit hw = true ↔ (hw >>> 11 = 0x1E ∨ hw >>> 11 = 0x1D ∨ hw >>> 11 = 0x1F) := by
  simp only [is_32bit, Bool.or_eq_true, beq_iff_eq, andmF000, andmF800]
  omega

/-- Faithfulness of the `op1 = 0` fallback in `DumpThumb32W`: the source
re-enters `DumpThumb16`, which (as the first halfword fails the 32-bit
test) decodes the halfword locally and returns 2 — exactly what the
embedding hard-codes. -/
theorem DumpThumb32_op1_zero (mem : Nat → Nat) (p : Nat)
    (h0 : ((ReadU16 mem p <<< 16 ||| ReadU16 mem (p + 2)) >>> 27) &&& 3 = 0) :
    DumpThumb32 mem p =
      ("\t\t\t" ++ ptrHex p ++ ": " ++ (DumpThumb16 mem p).1, (DumpThumb16 mem p).2) := by
  have h32 : is_32bit (ReadU16 mem p) = false :=
    op1_zero_not_32bit _ _ (ReadU16_lt mem (p + 2)) h0
  have hsh : (ReadU16 mem p <<< 16 ||| ReadU16 mem (p + 2)) >>> 16 = ReadU16 mem p := by
    rw [lor16_eq_add _ _ (ReadU16_lt mem (p + 2))]
    have := ReadU16_lt mem (p + 2)
    omega
  unfold DumpThumb32 DumpThumb32W DumpThumb16
  dsimp only
  rw [if_pos h0, hsh, h32]
  simp [DumpThumb16Line]

/-- The reported length is 4 exactly when the unit passes the 32-bit test. -/
theorem DumpThumb16_snd_eq (mem : Nat → Nat) (p : Nat) :
    (DumpThumb16 mem p).2 = if is_32bit (ReadU16 mem p) then 4 else 2 := by
  by_cases h : is_32bit (ReadU16 mem p)
  · have hne := is32_op1_ne_zero (ReadU16 mem p) (ReadU16 mem (p + 2))
      (ReadU16_lt mem (p + 2)) h
    simp [DumpThumb16, DumpThumb32, DumpThumb32W, h, hne]
  · simp [DumpThumb16, h]

/-- Sign extension depends only on the low `w` bits. -/
theorem sext_congr (w a b : Nat) (h : a % 2 ^ w = b % 2 ^ w) : sext w a = sext w b := by
  unfold sext
  rw [h]

/-! ### String plumbing for the register-list loop -/

theorem foldl_append_acc (l : List String) : ∀ acc : String,
    l.foldl (fun r s => r ++ s) acc = acc ++ l.foldl (fun r s => r ++ s) "" := by
  induction l with
  | nil => intro acc; simp
  | cons a as ih =>
    intro acc
    simp only [List.foldl_cons]
    rw [ih, ih ("" ++ a)]
    simp [String.append_assoc]

theorem join_cons (a : String) (l : List String) :
    String.join (a :: l) = a ++ String.join l := by
  show (a :: l).foldl (fun r s => r ++ s) "" = a ++ l.foldl (fun r s => r ++ s) ""
  simp only [List.foldl_cons]
  rw [foldl_append_acc]
  simp

theorem intercalate_go_eq (s : String) : ∀ (l : List String) (acc : String),
    String.intercalate.go acc s l = acc ++ String.join (l.map (fun x => s ++ x)) := by
  intro l
  induction l with
  | nil => intro acc; simp [String.intercalate.go, String.join]
  | cons a as ih =>
    intro acc
    rw [String.intercalate.go, ih]
    rw [List.map_cons, join_cons]
    simp [String.append_assoc]

theorem intercalate_cons (s a : String) (l : List String) :
    String.intercalate s (a :: l) = a ++ String.join (l.map (fun x => s ++ x)) := by
  show String.intercalate.go a s l = _
  rw [intercalate_go_eq]

/-- The loop's bit test `(reg_list & (1 << i)) != 0` is `testBit`. -/
theorem and_one_shiftLeft_ne (mask i : Nat) :
    (mask &&& (1 <<< i) ≠ 0) ↔ mask.testBit i = true := by
  rw [Nat.one_shiftLeft, Nat.and_two_pow]
  cases h : mask.testBit i <;> simp [h, (Nat.two_pow_pos i).ne']

/-- With `first = false` the loop prints `, name` per set bit, in order. -/
theorem RegListLoop_false (mask : Nat) : ∀ l : List Nat,
    RegListLoop mask l false =
      String.join ((l.filter (fun i => mask.testBit i)).map
        (fun i => ", " ++ DumpReg i)) := by
  intro l
  induction l with
  | nil => rfl
  | cons i rest ih =>
    by_cases h : mask &&& (1 <<< i) ≠ 0
    · have ht : mask.testBit i = true := (and_one_shiftLeft_ne mask i).mp h
      simp only [RegListLoop, if_pos h, List.filter_cons, ht, if_pos]
      rw [ih, List.map_cons, join_cons]
      simp [String.append_assoc]
    · have ht : mask.testBit i = false := by
        have := (and_one_shiftLeft_ne mask i).not.mp h
        simpa using this
      simp only [RegListLoop, if_neg h, List.filter_cons, ht]
      rw [ih]
      simp

/-- With `first = true` the loop opens the list at the first set bit. -/
theorem RegListLoop_true (mask : Nat) : ∀ l : List Nat,
    RegListLoop mask l true =
      (match l.filter (fun i => mask.testBit i) with
       | [] => ""
       | j :: rest =>
         "\x7b" ++ DumpReg j ++ String.join (rest.map (fun i => ", " ++ DumpReg i))) := by
  intro l
  induction l with
  | nil => rfl
  | cons i rest ih =>
    by_cases h : mask &&& (1 <<< i) ≠ 0
    · have ht : mask.testBit i = true := (and_one_shiftLeft_ne mask i).mp h
      simp only [RegListLoop, if_pos h, List.filter_cons, ht, if_pos]
      rw [RegListLoop_false]
    · have ht : mask.testBit i = false := by
        have := (and_one_shiftLeft_ne mask i).not.mp h
        simpa using this
      simp only [RegListLoop, if_neg h, List.filter_cons, ht]
      rw [ih]
      simp

/-- A non-zero 16-bit mask has a set bit among indices 0..15. -/
theorem low_bit_exists (mask : Nat) (h0 : mask ≠ 0) (hlt : mask < 65536) :
    (List.range 16).filter (fun i => mask.testBit i) ≠ [] := by
  intro hnil
  apply h0
  apply Nat.eq_of_testBit_eq
  intro i
  simp only [Nat.zero_testBit]
  by_cases hi : i < 16
  · have := List.filter_eq_nil_iff.mp hnil i (List.mem_range.mpr hi)
    simpa using this
  · exact Nat.testBit_lt_two_pow (lt_of_lt_of_le hlt (by
      have h16 : (65536 : Nat) = 2 ^ 16 := by norm_num
      rw [h16]
      exact Nat.pow_le_pow_right (by norm_num) (by omega)))

/-! ### The claims -/

/-- C6: for every condition field value, a value in 0-14 renders exactly
as the mnemonic at that index of the fixed table EQ, NE, CS, CC, MI, PL,
VS, VC, HI, LS, GE, LT, GT, LE, AL, and value 15 renders as the explicit
"unexpected condition" diagnostic instead of indexing the table. -/
theorem cond_code_rendering :
    (∀ c : Nat, c < 15 →
      DumpCond c = (["EQ", "NE", "CS", "CC", "MI", "PL", "VS", "VC",
        "HI", "LS", "GE", "LT", "GT", "LE", "AL"].getD c ""))
    ∧ DumpCond 15 = "Unexpected condition: 15" := by
  constructor
  · decide
  · rfl

/-- C7: register index 13 renders as "SP", 14 as "LR", 15 as "PC", and
every index 0-12 as the plain numeric name; the rendering is the single
function `DumpReg`, which every operand position of every instruction
family uses. -/
theorem reg_alias_rendering :
    (∀ r : Nat, r ≤ 12 → DumpReg r = "r" ++ toString r)
    ∧ DumpReg 13 = "SP" ∧ DumpReg 14 = "LR" ∧ DumpReg 15 = "PC" := by
  refine ⟨?_, rfl, rfl, rfl⟩
  decide

/-- C8: the empty register set renders as the explicit placeholder and
never as an empty brace pair. -/
theorem empty_reg_list_rendering :
    DumpRegList 0 = "<no register list?>" ∧ DumpRegList 0 ≠ "\x7b\x7d" := by
  exact ⟨rfl, by decide⟩

/-- C10: every non-zero 16-bit register mask renders as an opening brace,
the registers whose mask bit is set in increasing index order separated
by ", ", and a closing brace. -/
theorem reg_list_rendering (mask : Nat) (h0 : mask ≠ 0) (hlt : mask < 65536) :
    DumpRegList mask =
      "\x7b" ++ String.intercalate ", "
        (((List.range 16).filter (fun i => mask.testBit i)).map DumpReg) ++ "\x7d" := by
  unfold DumpRegList
  rw [if_neg h0, RegListLoop_true]
  obtain ⟨j, rest, hj⟩ := List.exists_cons_of_ne_nil (low_bit_exists mask h0 hlt)
  rw [hj]
  rw [List.map_cons, intercalate_cons, List.map_map]
  simp [String.append_assoc, Function.comp_def]

/-- Witness for C10 at the concrete mask 0x4003: registers 0, 1 and 14. -/
theorem reg_list_rendering_witness : DumpRegList 0x4003 = "\x7br0, r1, LR\x7d" := by
  rw [reg_list_rendering 0x4003 (by decide) (by decide)]
  decide

/-- C3: a 16-bit unit whose top 5 bits are 11110, 11101 or 11111 makes
the short decoder delegate to the long decoder and report 4 consumed
bytes; every other 16-bit unit is decoded locally and reports exactly 2
consumed bytes. -/
theorem thumb16_unit_length_dispatch (mem : Nat → Nat) (p : Nat) :
    ((ReadU16 mem p >>> 11 = 0x1E ∨ ReadU16 mem p >>> 11 = 0x1D ∨
        ReadU16 mem p >>> 11 = 0x1F) →
      DumpThumb16 mem p = DumpThumb32 mem p ∧ (DumpThumb16 mem p).2 = 4)
    ∧ (¬(ReadU16 mem p >>> 11 = 0x1E ∨ ReadU16 mem p >>> 11 = 0x1D ∨
        ReadU16 mem p >>> 11 = 0x1F) →
      DumpThumb16 mem p = (DumpThumb16Line p (ReadU16 mem p), 2)) := by
  constructor
  · intro htop
    have h32 : is_32bit (ReadU16 mem p) = true :=
      (is_32bit_iff _ (ReadU16_lt mem p)).mpr htop
    refine ⟨by simp [DumpThumb16, h32], ?_⟩
    rw [DumpThumb16_snd_eq, h32]
    rfl
  · intro htop
    have h32 : is_32bit (ReadU16 mem p) = false := by
      rw [← Bool.not_eq_true, is_32bit_iff _ (ReadU16_lt mem p)]
      exact htop
    simp [DumpThumb16, h32]

/-- Sanity: the 32-bit BL prefix 0xF000 delegates (4 bytes), the 16-bit
unit 0x2000 decodes locally (2 bytes, `MOVS r0, #0`). -/
theorem thumb16_unit_length_examples :
    (DumpThumb16 (fun a => if a = 1 then 0xF0 else 0) 0).2 = 4
    ∧ DumpThumb16 (fun a => if a = 1 then 0x20 else 0) 0
        = ("\t\t\t0x0: MOVS r0, #0  // 2000\n", 2) := by
  constructor
  · decide
  · decide

/-- C5: a 16-bit unit whose top 6 bits are 111000 or 111001 renders as
an unconditional branch whose offset is the unit's low 11 bits shifted
left by 1 and sign extended from 12 bits, with printed target equal to
the instruction address plus 4 plus that offset. -/
theorem thumb16_uncond_branch_rendering (mem : Nat → Nat) (p : Nat)
    (htop : ReadU16 mem p >>> 10 = 0x38 ∨ ReadU16 mem p >>> 10 = 0x39) :
    DumpThumb16 mem p =
      ("\t\t\t" ++ ptrHex p ++ ": " ++
        ("B " ++ (toString (sext 12 ((ReadU16 mem p &&& 0x7FF) <<< 1)) ++ " (" ++
          intPtr ((p : Int) + 4 + sext 12 ((ReadU16 mem p &&& 0x7FF) <<< 1)) ++ ")") ++
          "  // ") ++ hex4 (ReadU16 mem p) ++ "\n", 2) := by
  have hlt := ReadU16_lt mem p
  have h32 : is_32bit (ReadU16 mem p) = false := by
    rw [← Bool.not_eq_true, is_32bit_iff _ hlt]
    omega
  have hline : DumpThumb16 mem p = (DumpThumb16Line p (ReadU16 mem p), 2) := by
    simp [DumpThumb16, h32]
  rw [hline]
  unfold DumpThumb16Line DumpThumb16Body
  generalize hq : ReadU16 mem p = hw at htop hlt ⊢
  dsimp only
  rw [if_neg (by omega), if_neg (by omega),
    if_neg (by rw [andmF000]; omega),
    if_neg (by simp only [andmF000, andmE000]; omega),
    if_pos htop]
  have hoff : sext 12 ((hw &&& 0x7FFF) <<< 1) = sext 12 ((hw &&& 0x7FF) <<< 1) :=
    sext_congr _ _ _ (by simp only [andm7FFF, andm7FF]; omega)
  rw [hoff]
  unfold DumpBranchTarget
  simp [String.append_assoc]

/-- Two bytes 00 E0, the unconditional branch 0xE000 with zero offset. -/
def C5wmem : Nat → Nat := fun a => if a = 1 then 0xE0 else 0

/-- Witness for C5: `B 0`, target = 0 + 4 + 0. -/
theorem thumb16_uncond_branch_witness :
    DumpThumb16 C5wmem 0 = ("\t\t\t0x0: B 0 (0x4)  // e000\n", 2) := by
  rw [thumb16_uncond_branch_rendering C5wmem 0 (by decide)]
  decide

/-- C9: in the 32-bit load/store-multiple family (op1 = 1, op2 in the 16
recognized values), every load form with sub-opcode 1 and base register
13 renders as `POP` and every decrement-before store form with
sub-opcode 2 and base register 13 renders as `PUSH`, whatever the
write-back bit (bit 21) holds, and no `!` is rendered: the whole text
between header and raw hex is just the mnemonic and the register list. -/
theorem ldm_stm_push_pop_rendering (p instr : Nat) :
    (((instr >>> 27) &&& 3 = 1) →
      ((instr >>> 20) &&& 0x7F = 0x00 ∨ (instr >>> 20) &&& 0x7F = 0x01 ∨
       (instr >>> 20) &&& 0x7F = 0x02 ∨ (instr >>> 20) &&& 0x7F = 0x03 ∨
       (instr >>> 20) &&& 0x7F = 0x08 ∨ (instr >>> 20) &&& 0x7F = 0x09 ∨
       (instr >>> 20) &&& 0x7F = 0x0A ∨ (instr >>> 20) &&& 0x7F = 0x0B ∨
       (instr >>> 20) &&& 0x7F = 0x10 ∨ (instr >>> 20) &&& 0x7F = 0x11 ∨
       (instr >>> 20) &&& 0x7F = 0x12 ∨ (instr >>> 20) &&& 0x7F = 0x13 ∨
       (instr >>> 20) &&& 0x7F = 0x18 ∨ (instr >>> 20) &&& 0x7F = 0x19 ∨
       (instr >>> 20) &&& 0x7F = 0x1A ∨ (instr >>> 20) &&& 0x7F = 0x1B) →
      ((instr >>> 23) &&& 3 = 1) → ((instr >>> 20) &&& 1 = 1) →
      ((instr >>> 16) &&& 0xF = 13) →
      DumpThumb32W p instr =
        ("\t\t\t" ++ ptrHex p ++ ": " ++
          ("POP " ++ DumpRegList (instr &&& 0xFFFF) ++ "  // ") ++
          hex8 instr ++ "\n", 4))
    ∧ (((instr >>> 27) &&& 3 = 1) →
      ((instr >>> 20) &&& 0x7F = 0x00 ∨ (instr >>> 20) &&& 0x7F = 0x01 ∨
       (instr >>> 20) &&& 0x7F = 0x02 ∨ (instr >>> 20) &&& 0x7F = 0x03 ∨
       (instr >>> 20) &&& 0x7F = 0x08 ∨ (instr >>> 20) &&& 0x7F = 0x09 ∨
       (instr >>> 20) &&& 0x7F = 0x0A ∨ (instr >>> 20) &&& 0x7F = 0x0B ∨
       (instr >>> 20) &&& 0x7F = 0x10 ∨ (instr >>> 20) &&& 0x7F = 0x11 ∨
       (instr >>> 20) &&& 0x7F = 0x12 ∨ (instr >>> 20) &&& 0x7F = 0x13 ∨
       (instr >>> 20) &&& 0x7F = 0x18 ∨ (instr >>> 20) &&& 0x7F = 0x19 ∨
       (instr >>> 20) &&& 0x7F = 0x1A ∨ (instr >>> 20) &&& 0x7F = 0x1B) →
      ((instr >>> 23) &&& 3 = 2) → ((instr >>> 20) &&& 1 = 0) →
      ((instr >>> 16) &&& 0xF = 13) →
      DumpThumb32W p instr =
        ("\t\t\t" ++ ptrHex p ++ ": " ++
          ("PUSH " ++ DumpRegList (instr &&& 0xFFFF) ++ "  // ") ++
          hex8 instr ++ "\n", 4)) := by
  constructor
  · intro h1 h2 hop hL hRn
    unfold DumpThumb32W
    dsimp only
    rw [if_neg (by simp [h1])]
    unfold DumpThumb32Body
    dsimp only
    rw [if_pos h1, if_pos h2, if_pos (Or.inl hop), if_pos hop,
      if_neg (by simp [hL]), if_neg (by simp [hRn])]
  · intro h1 h2 hop hL hRn
    unfold DumpThumb32W
    dsimp only
    rw [if_neg (by simp [h1])]
    unfold DumpThumb32Body
    dsimp only
    rw [if_pos h1, if_pos h2, if_pos (Or.inr hop), if_neg (by simp [hop]),
      if_pos hL, if_neg (by simp [hRn])]

/-- Sanity: the canonical encodings `POP \x7br0, PC\x7d` (0xE8BD8001, with
write-back bit set) and `PUSH \x7br1, LR\x7d` (0xE92D4002). -/
theorem ldm_stm_push_pop_examples :
    (DumpThumb32W 0 0xE8BD8001).1 = "\t\t\t0x0: POP \x7br0, PC\x7d  // e8bd8001\n"
    ∧ (DumpThumb32W 0 0xE92D4002).1 = "\t\t\t0x0: PUSH \x7br1, LR\x7d  // e92d4002\n" := by
  constructor
  · decide
  · decide

/-- C1 (amended): a 32-bit BL/BLX immediate encoding (op1 = 2, bit 15
set, bits [14:12] in 4..7) with all offset fields zero renders branch
offset -4194304 — the unmasked `uint32_t` complement in `~(J ^ S)` fills
bits 23 and 22 with ones — so the printed target is the instruction
address plus 4 minus 4194304, not the instruction address plus 4. -/
theorem bl_immediate_zero_fields_rendering (p instr : Nat)
    (h1 : (instr >>> 27) &&& 3 = 2)
    (h15 : instr &&& 0x8000 ≠ 0)
    (hop3 : (instr >>> 12) &&& 7 = 4 ∨ (instr >>> 12) &&& 7 = 5 ∨
      (instr >>> 12) &&& 7 = 6 ∨ (instr >>> 12) &&& 7 = 7)
    (hS : (instr >>> 26) &&& 1 = 0) (hJ1 : (instr >>> 13) &&& 1 = 0)
    (hJ2 : (instr >>> 11) &&& 1 = 0) (h10 : (instr >>> 16) &&& 0x3FF = 0)
    (h11 : instr &&& 0x7FF = 0) :
    DumpThumb32W p instr =
      ("\t\t\t" ++ ptrHex p ++ ": " ++
        ((if (instr >>> 12) &&& 1 = 0 then "BX " else "BLX ") ++
          (toString (-4194304 : Int) ++ " (" ++
            intPtr ((p : Int) + 4 + -4194304) ++ ")")) ++
        hex8 instr ++ "\n", 4) := by
  unfold DumpThumb32W
  dsimp only
  rw [if_neg (by simp [h1])]
  unfold DumpThumb32Body
  dsimp only
  rw [if_neg (by simp [h1]), if_pos h1, if_neg (by simp [h15]),
    if_neg (by simp [h15]),
    if_neg (by rcases hop3 with h | h | h | h <;> simp [h]),
    if_pos (by tauto)]
  rw [hS, hJ1, hJ2, h10, h11]
  rw [show BLImm32 0 0 0 0 0 = (-4194304 : Int) from by decide]
  unfold DumpBranchTarget
  simp [String.append_assoc]

/-- Counterexample for C1 as stated: the all-zero-offset BLX encoding
0xF000D000 at address 0x400000 prints target 0x4, which is not the
instruction address plus 4 (0x400004). -/
theorem bl_immediate_zero_fields_counterexample :
    (DumpThumb32W 0x400000 0xF000D000).1
      = "\t\t\t0x400000: BLX -4194304 (0x4)f000d000\n"
    ∧ (0x400000 : Int) + 4 + BLImm32 0 0 0 0 0 ≠ (0x400000 : Int) + 4 := by
  constructor
  · decide
  · decide

/-- Witness for C1 (amended) at the BX variant 0xF000C000, address
0x500000: printed target 0x500004 - 0x400000 = 0x100004. -/
theorem bl_immediate_zero_fields_witness :
    DumpThumb32W 0x500000 0xF000C000
      = ("\t\t\t0x500000: BX -4194304 (0x100004)f000c000\n", 4) := by
  rw [bl_immediate_zero_fields_rendering 0x500000 0xF000C000 (by decide) (by decide)
    (by decide) (by decide) (by decide) (by decide) (by decide) (by decide)]
  decide

/-- All-zero buffer. -/
def mem0 : Nat → Nat := fun _ => 0

/-- Buffer that differs from `mem0` only at byte 7. -/
def memX : Nat → Nat := fun a => if a = 7 then 0xFF else 0

/-- Buffer that agrees with `mem0` below byte 8. -/
def memY : Nat → Nat := fun a => if a < 8 then 0 else 1

/-- With an even start and odd end, the fixed-width walk of `[b, e)` is
the walk of `[b, e + 1)`: the stride is 4 from an even start, so no
cursor value ever equals the odd `e`. -/
theorem DumpArmRange_odd_end (mem : Nat → Nat) (e : Nat) (he : e % 2 = 1) :
    ∀ n b, e + 1 - b ≤ n → b % 2 = 0 →
      DumpArmRange mem b e = DumpArmRange mem b (e + 1) := by
  intro n
  induction n with
  | zero =>
    intro b hle hb
    rw [DumpArmRange_eq mem b e, DumpArmRange_eq mem b (e + 1),
      if_neg (by omega), if_neg (by omega)]
  | succ n ih =>
    intro b hle hb
    rw [DumpArmRange_eq mem b e, DumpArmRange_eq mem b (e + 1)]
    by_cases h : b < e
    · rw [if_pos h, if_pos (by omega), ih (b + 4) (by omega) (by omega)]
    · rw [if_neg h, if_neg (by omega)]

/-- C4 (amended): when the range's start address is even, the dispatcher
does not mask the tag bit off either bound; it strides 4 bytes from
`begin` while the cursor is below the unmasked `end`, so a range whose
end address is odd is walked exactly as the range ending at end plus 1
(not end minus 1). -/
theorem dump_arm_odd_end_walk (mem : Nat → Nat) (b e : Nat)
    (hb : b % 2 = 0) (he : e % 2 = 1) :
    Dump mem b e = Dump mem b (e + 1) := by
  unfold Dump
  rw [if_pos hb, if_pos hb]
  exact DumpArmRange_odd_end mem e he (e + 1 - b) b le_rfl hb

/-- Counterexample for C4 as stated: with start 0 (even) and odd end 5,
the walk decodes a second unit at address 4, while the range ending at
end minus 1 = 4 decodes only one unit — the two outputs differ, so an
odd end is not walked as the range ending at end minus 1. -/
theorem dump_arm_odd_end_counterexample :
    Dump mem0 0 5 ≠ Dump mem0 0 4 := by
  rw [Dump, Dump, if_pos (by decide), if_pos (by decide),
    DumpArmRange_eq mem0 0 5, DumpArmRange_eq mem0 4 5, DumpArmRange_eq mem0 8 5,
    DumpArmRange_eq mem0 0 4, DumpArmRange_eq mem0 4 4]
  decide

/-- Witness for C4 (amended): `[2, 7)` is walked exactly as `[2, 8)`. -/
theorem dump_arm_odd_end_walk_witness : Dump mem0 2 7 = Dump mem0 2 8 :=
  dump_arm_odd_end_walk mem0 2 7 rfl rfl

/-- On a 4-aligned fixed-width range the walk only reads bytes inside
`[b, e)`: the output is unchanged by any modification beyond `e`. -/
theorem DumpArmRange_within (mem mem2 : Nat → Nat) (e : Nat) :
    ∀ n b, e + 1 - b ≤ n → 4 ∣ (e - b) →
      (∀ a, b ≤ a → a < e → mem a = mem2 a) →
      DumpArmRange mem b e = DumpArmRange mem2 b e := by
  intro n
  induction n with
  | zero =>
    intro b hle _ _
    rw [DumpArmRange_eq mem b e, DumpArmRange_eq mem2 b e,
      if_neg (by omega), if_neg (by omega)]
  | succ n ih =>
    intro b hle hdvd hag
    rw [DumpArmRange_eq mem b e, DumpArmRange_eq mem2 b e]
    by_cases h : b < e
    · have h4 : b + 4 ≤ e := by
        rcases hdvd with ⟨k, hk⟩
        omega
      have harm : DumpArm mem b = DumpArm mem2 b := by
        unfold DumpArm ReadU32
        rw [hag b le_rfl (by omega), hag (b + 1) (by omega) (by omega),
          hag (b + 2) (by omega) (by omega), hag (b + 3) (by omega) (by omega)]
      rw [if_pos h, if_pos h, harm,
        ih (b + 4) (by omega) (by rcases hdvd with ⟨k, hk⟩; exact ⟨k - 1, by omega⟩)
          (fun a ha1 ha2 => hag a (by omega) ha2)]
    · rw [if_neg h, if_neg h]

/-- On a compressed range whose walk consumes exactly `e - b` bytes,
every unit lies inside `[b, e)` and the output is unchanged by any
modification beyond `e`. -/
theorem DumpThumbRange_within (mem mem2 : Nat → Nat) (e : Nat) :
    ∀ n b, e + 1 - b ≤ n → ThumbConsumed mem b e = e - b →
      (∀ a, b ≤ a → a < e → mem a = mem2 a) →
      DumpThumbRange mem b e = DumpThumbRange mem2 b e := by
  intro n
  induction n with
  | zero =>
    intro b hle _ _
    rw [DumpThumbRange_eq mem b e, DumpThumbRange_eq mem2 b e,
      if_neg (by omega), if_neg (by omega)]
  | succ n ih =>
    intro b hle hcons hag
    by_cases h : b < e
    · rw [ThumbConsumed_eq, if_pos h] at hcons
      have hsz := DumpThumb16_snd_two_or_four mem b
      have hfit : b + (DumpThumb16 mem b).2 ≤ e := by omega
      have hr16 : ReadU16 mem b = ReadU16 mem2 b := by
        unfold ReadU16
        rw [hag b le_rfl (by omega), hag (b + 1) (by omega) (by omega)]
      rcases hsz with h2 | h4
      · have hb32 : is_32bit (ReadU16 mem b) = false := by
          by_contra hx
          have hx2 : is_32bit (ReadU16 mem b) = true := by
            revert hx
            cases is_32bit (ReadU16 mem b) <;> simp
          rw [DumpThumb16_snd_eq mem b, hx2] at h2
          simp at h2
        have hunit : DumpThumb16 mem b = DumpThumb16 mem2 b := by
          unfold DumpThumb16
          dsimp only
          rw [← hr16]
          simp [hb32]
        rw [DumpThumbRange_eq mem b e, DumpThumbRange_eq mem2 b e,
          if_pos h, if_pos h, ← hunit]
        congr 1
        exact ih (b + (DumpThumb16 mem b).2) (by omega) (by omega)
          (fun a ha1 ha2 => hag a (by omega) ha2)
      · have hr16b : ReadU16 mem (b + 2) = ReadU16 mem2 (b + 2) := by
          unfold ReadU16
          rw [hag (b + 2) (by omega) (by omega), hag (b + 2 + 1) (by omega) (by omega)]
        have hunit : DumpThumb16 mem b = DumpThumb16 mem2 b := by
          unfold DumpThumb16 DumpThumb32
          dsimp only
          rw [← hr16, ← hr16b]
        rw [DumpThumbRange_eq mem b e, DumpThumbRange_eq mem2 b e,
          if_pos h, if_pos h, ← hunit]
        congr 1
        exact ih (b + (DumpThumb16 mem b).2) (by omega) (by omega)
          (fun a ha1 ha2 => hag a (by omega) ha2)
    · rw [DumpThumbRange_eq mem b e, DumpThumbRange_eq mem2 b e,
        if_neg h, if_neg h]

/-- C2 (amended): when the range is well formed — fixed-width length a
multiple of 4, or a compressed walk that consumes exactly `e - b` bytes
— no decode step reads bytes at or beyond the range's end: the output
depends only on the bytes of `[b, e)`.  When the length is not a
multiple of the final unit's size the claim fails: the final partial
unit is still decoded and its reads extend past `e` (see the
counterexample, where the output depends on byte 7 of a 5-byte range). -/
theorem dump_no_read_past_end_when_well_formed (mem mem2 : Nat → Nat) (b e : Nat)
    (hag : ∀ a, b ≤ a → a < e → mem a = mem2 a) :
    (4 ∣ (e - b) → DumpArmRange mem b e = DumpArmRange mem2 b e)
    ∧ (ThumbConsumed mem b e = e - b →
        DumpThumbRange mem b e = DumpThumbRange mem2 b e) :=
  ⟨fun hd => DumpArmRange_within mem mem2 e (e + 1 - b) b le_rfl hd hag,
   fun hc => DumpThumbRange_within mem mem2 e (e + 1 - b) b le_rfl hc hag⟩

/-- Counterexample for C2 as stated: two buffers that agree on all five
bytes of the fixed-width range `[0, 5)` but differ at byte 7 produce
different dispatcher output — the trailing partial unit at offset 4 is
decoded and reads bytes 5..7, at and beyond the range's end. -/
theorem dump_reads_past_end_counterexample :
    (mem0 0 = memX 0 ∧ mem0 1 = memX 1 ∧ mem0 2 = memX 2 ∧ mem0 3 = memX 3 ∧
      mem0 4 = memX 4)
    ∧ Dump mem0 0 5 ≠ Dump memX 0 5 := by
  refine ⟨by decide, ?_⟩
  rw [Dump, Dump, if_pos (by decide), if_pos (by decide),
    DumpArmRange_eq mem0 0 5, DumpArmRange_eq mem0 4 5, DumpArmRange_eq mem0 8 5,
    DumpArmRange_eq memX 0 5, DumpArmRange_eq memX 4 5, DumpArmRange_eq memX 8 5]
  decide

/-- Witness for C2 (amended) on the aligned range `[0, 8)`: buffers that
agree below 8 dump identically. -/
theorem dump_no_read_past_end_witness :
    DumpArmRange mem0 0 8 = DumpArmRange memY 0 8 :=
  (dump_no_read_past_end_when_well_formed mem0 memY 0 8
    (fun a _ h2 => by simp [mem0, memY, h2])).1 (by decide)

/-! ### Spec scenarios, checked against the embedding -/

/-- Scenario: `00 bf` decodes as the no-operand hint NOP, 2 bytes. -/
theorem scenario_nop :
    DumpThumb16 (fun a => if a = 1 then 0xBF else 0) 0
      = ("\t\t\t0x0: NOP  // bf00\n", 2) := by
  decide

/-- Scenario: a fixed-width unit with raw bytes 01 02 03 04 emits the
address, no mnemonic, and the reassembled little-endian hex 04030201. -/
theorem scenario_arm_raw :
    DumpArm (fun a => a + 1) 0 = "\t\t\t0x0: 04030201\n" := by
  decide

/-- Scenario: an empty range emits nothing, in either mode. -/
theorem scenario_empty_range : Dump mem0 0 0 = "" ∧ Dump mem0 1 1 = "" := by
  constructor
  · rw [Dump, if_pos (by decide), DumpArmRange_eq mem0 0 0, if_neg (by decide)]
  · rw [Dump, if_neg (by decide)]
    show DumpThumbRange mem0 0 0 = ""
    rw [DumpThumbRange_eq mem0 0 0, if_neg (by decide)]

end ArtArmDis
